import Mathlib

/-
Shallow embedding of `src/moench_tango_control_server.py`
(MBI-Div-B/pytango-moenchDetector).

The file is a thin Tango device server: every attribute accessor forwards
to a vendor `Moench` detector handle, with a little validation in front.
We embed the detector fields this server touches as a record, the server
(device state, streamed log, the `self.VIRTUAL` flag and the calls made
into the `ComputerSetup` helper) as a `ServerState`, and each `read_*` /
`write_*` method and command as a pure state transformer.  Behaviour of
the external vendor library that the server merely reacts to (whether the
highvoltage setter raises `RuntimeError`, what `init_pc` returns, whether
`deactivate_pc` raises) is passed in as an explicit parameter.
-/

/-- Tango device states used by this server (`DevState`). -/
inductive DevState where
  | INIT
  | FAULT
  | ON
  | UNKNOWN
  deriving Repr, DecidableEq

/-- A message streamed via `info_stream` or `error_stream`. -/
inductive LogEntry where
  | info (msg : String)
  | error (msg : String)
  deriving Repr, DecidableEq

/-- The vendor `_slsdet.IpAddr` wrapper: the constructor is handed the raw
string; the server performs no further processing on it. -/
structure IpAddr where
  addr : String
  deriving Repr, DecidableEq

/-- slsdet `timingMode` enum values (vendor library). -/
def AUTO_TIMING : Nat := 0

/-- slsdet `timingMode.TRIGGER_EXPOSURE` enum value (vendor library). -/
def TRIGGER_EXPOSURE : Nat := 1

/-- slsdet `timingMode.GATED` enum value (vendor library); a timing value
that is neither `AUTO_TIMING` nor `TRIGGER_EXPOSURE`. -/
def GATED : Nat := 2

/-- The fields of the vendor `Moench` detector handle that the embedded
methods touch.  `settings` and `rx_discardpolicy` store the integer value
of the vendor enum (`detectorSettings` / `frameDiscardPolicy`) once one
has been assigned. -/
structure Moench where
  timing : Nat := AUTO_TIMING
  settings : Option Nat := none
  rx_discardpolicy : Option Nat := none
  rx_zmqip : IpAddr := ⟨ "0.0.0.0" ⟩
  highvoltage : Int := 0
  deriving Repr, DecidableEq

/-- A call made into the `ComputerSetup` helper, recording the `virtual`
flag it was passed. -/
inductive PcCall where
  | init_pc (virt : Bool)
  | deactivate_pc (virt : Bool)
  deriving Repr, DecidableEq

/-- The observable state of the `MoenchDetectorControl` device server:
the detector handle, the Tango device state, the streamed log (most
recent entry first), the `self.VIRTUAL` flag computed from `sys.argv`,
and the calls made into the `ComputerSetup` helper (most recent first). -/
structure ServerState where
  device : Moench
  state : DevState
  log : List LogEntry
  VIRTUAL : Bool
  pcCalls : List PcCall
  deriving Repr, DecidableEq

/-- `self.info_stream(msg)`: prepend an info entry to the log. -/
def info_stream (st : ServerState) (msg : String) : ServerState :=
  { st with log := LogEntry.info msg :: st.log }

/-- `self.error_stream(msg)`: prepend an error entry to the log. -/
def error_stream (st : ServerState) (msg : String) : ServerState :=
  { st with log := LogEntry.error msg :: st.log }

/-- Python `str.lower()` restricted to ASCII case mapping, which is exact
for every string this server compares against (`"auto"`, `"ext"`). -/
def pyLower (s : String) : String :=
  String.mk (s.data.map Char.toLower)

/-- One regex group `\d{1,3}`: one to three ASCII digits. -/
def isDigitGroup (g : List Char) : Bool :=
  decide (1 ≤ g.length) && decide (g.length ≤ 3) && g.all Char.isDigit

/-- Split a character list at every dot; the dots are dropped and the
(possibly empty) groups between them are kept, so a list with `k` dots
yields `k + 1` groups. -/
def splitDots (l : List Char) : List (List Char) :=
  match l with
  | [] => [[]]
  | c :: rest =>
    let r := splitDots rest
    if c = '.' then [] :: r
    else
      match r with
      | g :: gs => (c :: g) :: gs
      | [] => [[c]]

/-- The whole string is four dot-separated groups of one to three digits.
Because a digit is never a dot, the anchored regex
`^\d{1,3}\.\d{1,3}\.\d{1,3}\.\d{1,3}$` matches a string exactly when
splitting it at the dots yields four digit groups. -/
def isDottedQuadSyntax (s : String) : Bool :=
  match splitDots s.data with
  | [a, b, c, d] => isDigitGroup a && isDigitGroup b && isDigitGroup c && isDigitGroup d
  | _ => false

/-- Python `bool(re.match(r"^\d{1,3}\.\d{1,3}\.\d{1,3}\.\d{1,3}$", s))`:
in Python `$` matches at the end of the string or just before a single
trailing newline, so the pattern matches `s` itself or, when `s` ends in
a newline, `s` with that newline removed. -/
def matchesIpRegex (s : String) : Bool :=
  isDottedQuadSyntax s ||
    (s.data.getLast? = some '\n' && isDottedQuadSyntax (String.mk s.data.dropLast))

/-- `write_zmqip` (lines 265-269): forward the string to the `IpAddr`
constructor and assign `rx_zmqip` when the regex matches, else stream an
error and leave everything unchanged. -/
def write_zmqip (st : ServerState) (value : String) : ServerState :=
  if matchesIpRegex value then
    { st with device := { st.device with rx_zmqip := IpAddr.mk value } }
  else
    error_stream st "not valid ip address"

/-- The `settings_dict` literal of `write_settings` (lines 249-258). -/
def settings_dict : List (String × Nat) :=
  [("G1_HIGHGAIN", 13),
   ("G1_LOWGAIN", 14),
   ("G2_HIGHCAP_HIGHGAIN", 15),
   ("G2_HIGHCAP_LOWGAIN", 16),
   ("G2_LOWCAP_HIGHGAIN", 17),
   ("G2_LOWCAP_LOWGAIN", 18),
   ("G4_HIGHGAIN", 19),
   ("G4_LOWGAIN", 20)]

/-- `write_settings` (lines 248-260): assign
`detectorSettings(settings_dict[value])` when `value` is a key of the
dict; otherwise fall through silently (no else branch in the source). -/
def write_settings (st : ServerState) (value : String) : ServerState :=
  match settings_dict.lookup value with
  | some n => { st with device := { st.device with settings := some n } }
  | none => st

/-- The `disard_dict` literal of `write_rx_discardpolicy` (lines 281-285);
the misspelt name is the one in the source. -/
def disard_dict : List (String × Nat) :=
  [("NO_DISCARD", 0),
   ("DISCARD_EMPTY_FRAMES", 1),
   ("DISCARD_PARTIAL_FRAMES", 2)]

/-- `write_rx_discardpolicy` (lines 280-287): assign
`frameDiscardPolicy(disard_dict[value])` when `value` is a key of the
dict; otherwise fall through silently. -/
def write_rx_discardpolicy (st : ServerState) (value : String) : ServerState :=
  match disard_dict.lookup value with
  | some n => { st with device := { st.device with rx_discardpolicy := some n } }
  | none => st

/-- `write_rx_missingpackets` (lines 292-293): the body is `pass`. -/
def write_rx_missingpackets (st : ServerState) (_value : String) : ServerState :=
  st

/-- `write_rx_status` (lines 310-311): the body is `pass`. -/
def write_rx_status (st : ServerState) (_value : String) : ServerState :=
  st

/-- `write_rx_version` (lines 322-323): the body is `pass`. -/
def write_rx_version (st : ServerState) (_value : String) : ServerState :=
  st

/-- `write_firmware_version` (lines 328-329): the body is `pass`. -/
def write_firmware_version (st : ServerState) (_value : String) : ServerState :=
  st

/-- `read_timing_mode` (lines 172-178): returns `"AUTO"` or `"EXT"` for
the two recognised timing enum values and falls off the end of the
function (Python `None`) after an info message otherwise.  The result is
the possibly updated server state paired with the returned value. -/
def read_timing_mode (st : ServerState) : ServerState × Option String :=
  if st.device.timing = AUTO_TIMING then (st, some "AUTO")
  else if st.device.timing = TRIGGER_EXPOSURE then (st, some "EXT")
  else (info_stream st "The timing mode is not assigned correctly.", none)

/-- A dynamically typed Python value handed to `write_timing_mode`:
either a `str` or a value of any other type (`type(value) == str` is the
test the source makes). -/
inductive PyVal where
  | str (s : String)
  | nonstr
  deriving Repr, DecidableEq

/-- `write_timing_mode` (lines 180-189): on a string, compare its
lower-cased form against `"auto"` and `"ext"`; any other string falls
through silently.  On a non-string, only an info message is streamed. -/
def write_timing_mode (st : ServerState) (value : PyVal) : ServerState :=
  match value with
  | PyVal.str s =>
    if pyLower s = "auto" then
      let st1 := info_stream st "Setting auto timing mode"
      { st1 with device := { st1.device with timing := AUTO_TIMING } }
    else if pyLower s = "ext" then
      let st1 := info_stream st "Setting external timing mode"
      { st1 with device := { st1.device with timing := TRIGGER_EXPOSURE } }
    else st
  | PyVal.nonstr => info_stream st "Timing mode should be \"AUTO/EXT\" string"

/-- The numeric bounds declared on a Tango attribute. -/
structure AttrBounds where
  min_value : Int
  max_value : Int
  min_warning : Int
  max_warning : Int
  deriving Repr, DecidableEq

/-- The bounds of the `highvoltage` attribute declaration (lines 59-68). -/
def highvoltage_attr : AttrBounds :=
  { min_value := 60, max_value := 200, min_warning := 70, max_warning := 170 }

/-- `write_highvoltage` (lines 227-231): assign
`self.device.highvoltage = value`; the vendor setter may raise
`RuntimeError` for disallowed values (which values do is decided by the
vendor library, passed in as the predicate `hvRejects`), in which case
the except clause streams an error and nothing else happens. -/
def write_highvoltage (hvRejects : Int → Bool) (st : ServerState) (value : Int) :
    ServerState :=
  if hvRejects value then error_stream st "not allowed highvoltage"
  else { st with device := { st.device with highvoltage := value } }

/-- `delete_device` (lines 331-339): call `deactivate_pc(self.VIRTUAL)`
inside a try block; whether it raises is the vendor parameter
`deactivateRaises`.  Either way the except clause keeps the method total:
no exception propagates to the caller. -/
def delete_device (deactivateRaises : Bool) (st : ServerState) : ServerState :=
  let st1 := { st with pcCalls := PcCall.deactivate_pc st.VIRTUAL :: st.pcCalls }
  if deactivateRaises then
    info_stream st1 "Unable to kill slsReceiver or zmq socket. Please kill it manually."
  else
    info_stream st1 "SlsReceiver or zmq socket processes were killed."

/-- `init_device` (lines 147-164): compute `self.VIRTUAL` from
`sys.argv`, set state INIT, call `init_pc(virtual=self.VIRTUAL)` (its
boolean result is the vendor parameter `initPcResult`), go FAULT with a
message when it returns false, build a fresh `Moench()` handle, then try
to read `self.device.status` (`statusResult`: `Except.ok s` when the
vendor returns status string `s`, `Except.error e` when it raises
`RuntimeError e`), going FAULT and running `delete_device` on failure. -/
def init_device (argv : List String) (initPcResult : Bool)
    (statusResult : Except String String) (deactivateRaises : Bool) : ServerState :=
  let virt := argv.contains "--virtual"
  let st0 : ServerState :=
    { device := {}, state := DevState.UNKNOWN, log := [], VIRTUAL := virt, pcCalls := [] }
  let st1 := { st0 with state := DevState.INIT }
  let st2 := { st1 with pcCalls := PcCall.init_pc virt :: st1.pcCalls }
  let st3 :=
    if initPcResult then st2
    else
      info_stream { st2 with state := DevState.FAULT }
        "Unable to start slsReceiver or zmq socket. Check firewall process and already running instances."
  let st4 := { st3 with device := {} }
  match statusResult with
  | Except.ok s => info_stream st4 ("Current device status: " ++ s)
  | Except.error e =>
    let st5 := info_stream { st4 with state := DevState.FAULT }
      ("Unable to establish connection with detector\n" ++ e)
    delete_device deactivateRaises st5

/-- A sample server state for concrete evaluations. -/
def exampleState : ServerState :=
  { device := {}, state := DevState.ON, log := [], VIRTUAL := false, pcCalls := [] }

/-- A server state whose detector reports `TRIGGER_EXPOSURE` timing. -/
def timingExtState : ServerState :=
  { exampleState with device := { exampleState.device with timing := TRIGGER_EXPOSURE } }

/-- A server state whose detector reports `GATED` timing, which is neither
of the two values `read_timing_mode` recognises. -/
def timingGatedState : ServerState :=
  { exampleState with device := { exampleState.device with timing := GATED } }

/-- A vendor highvoltage setter that raises `RuntimeError` on every value. -/
def rejectAll : Int → Bool := fun _ => true

/-- C1: `write_zmqip` forwards the string to the detector (as an `IpAddr`
assigned to `rx_zmqip`) exactly when it matches the dotted-quad regex of
four 1-to-3-digit groups separated by dots; every non-matching string is
rejected with a streamed error and the detector state, `rx_zmqip` in
particular, is unchanged. -/
theorem write_zmqip_validation (st : ServerState) (value : String) :
    (matchesIpRegex value = true →
      write_zmqip st value =
        { st with device := { st.device with rx_zmqip := IpAddr.mk value } }) ∧
    (matchesIpRegex value = false →
      write_zmqip st value = error_stream st "not valid ip address" ∧
      (write_zmqip st value).device = st.device) := by
  constructor
  · intro h
    simp [write_zmqip, h]
  · intro h
    simp [write_zmqip, h, error_stream]

/-- C1 witness: a well-formed address is forwarded and a malformed one is
rejected with the error entry. -/
theorem write_zmqip_validation_witness :
    write_zmqip exampleState "10.0.0.1" =
      { exampleState with
        device := { exampleState.device with rx_zmqip := IpAddr.mk "10.0.0.1" } } ∧
    write_zmqip exampleState "hello" = error_stream exampleState "not valid ip address" :=
  ⟨ (write_zmqip_validation exampleState "10.0.0.1").1 (by decide),
    ((write_zmqip_validation exampleState "hello").2 (by decide)).1 ⟩

/-- C2: `write_settings` assigns the detector settings to the enum value
that `settings_dict` associates with the string exactly when the string is
one of the eight keys; on any other string the whole server state,
detector and log included, is unchanged. -/
theorem write_settings_validation (st : ServerState) (value : String) :
    (∀ n, settings_dict.lookup value = some n →
      write_settings st value =
        { st with device := { st.device with settings := some n } }) ∧
    (settings_dict.lookup value = none → write_settings st value = st) := by
  constructor
  · intro n h
    simp [write_settings, h]
  · intro h
    simp [write_settings, h]

/-- C2 witness: the eight enum names map to 13..20 and an unknown name
leaves the state untouched. -/
theorem write_settings_validation_witness :
    write_settings exampleState "G1_HIGHGAIN" =
      { exampleState with device := { exampleState.device with settings := some 13 } } ∧
    write_settings exampleState "G1_LOWGAIN" =
      { exampleState with device := { exampleState.device with settings := some 14 } } ∧
    write_settings exampleState "G2_HIGHCAP_HIGHGAIN" =
      { exampleState with device := { exampleState.device with settings := some 15 } } ∧
    write_settings exampleState "G2_HIGHCAP_LOWGAIN" =
      { exampleState with device := { exampleState.device with settings := some 16 } } ∧
    write_settings exampleState "G2_LOWCAP_HIGHGAIN" =
      { exampleState with device := { exampleState.device with settings := some 17 } } ∧
    write_settings exampleState "G2_LOWCAP_LOWGAIN" =
      { exampleState with device := { exampleState.device with settings := some 18 } } ∧
    write_settings exampleState "G4_HIGHGAIN" =
      { exampleState with device := { exampleState.device with settings := some 19 } } ∧
    write_settings exampleState "G4_LOWGAIN" =
      { exampleState with device := { exampleState.device with settings := some 20 } } ∧
    write_settings exampleState "DYNAMICGAIN" = exampleState :=
  ⟨ (write_settings_validation exampleState "G1_HIGHGAIN").1 13 (by decide),
    (write_settings_validation exampleState "G1_LOWGAIN").1 14 (by decide),
    (write_settings_validation exampleState "G2_HIGHCAP_HIGHGAIN").1 15 (by decide),
    (write_settings_validation exampleState "G2_HIGHCAP_LOWGAIN").1 16 (by decide),
    (write_settings_validation exampleState "G2_LOWCAP_HIGHGAIN").1 17 (by decide),
    (write_settings_validation exampleState "G2_LOWCAP_LOWGAIN").1 18 (by decide),
    (write_settings_validation exampleState "G4_HIGHGAIN").1 19 (by decide),
    (write_settings_validation exampleState "G4_LOWGAIN").1 20 (by decide),
    (write_settings_validation exampleState "DYNAMICGAIN").2 (by decide) ⟩

/-- C3: `write_rx_discardpolicy` assigns the discard policy enum value
that `disard_dict` associates with the string exactly when the string is
one of the three keys NO_DISCARD, DISCARD_EMPTY_FRAMES,
DISCARD_PARTIAL_FRAMES; any other string leaves the whole server state
unchanged. -/
theorem write_rx_discardpolicy_validation (st : ServerState) (value : String) :
    (∀ n, disard_dict.lookup value = some n →
      write_rx_discardpolicy st value =
        { st with device := { st.device with rx_discardpolicy := some n } }) ∧
    (disard_dict.lookup value = none → write_rx_discardpolicy st value = st) := by
  constructor
  · intro n h
    simp [write_rx_discardpolicy, h]
  · intro h
    simp [write_rx_discardpolicy, h]

/-- C3 witness: the three policy names map to 0, 1, 2, and the names
DISCARD_EMPTY and DISCARD_PARTIAL used by the attribute doc string are
silently ignored. -/
theorem write_rx_discardpolicy_validation_witness :
    write_rx_discardpolicy exampleState "NO_DISCARD" =
      { exampleState with
        device := { exampleState.device with rx_discardpolicy := some 0 } } ∧
    write_rx_discardpolicy exampleState "DISCARD_EMPTY_FRAMES" =
      { exampleState with
        device := { exampleState.device with rx_discardpolicy := some 1 } } ∧
    write_rx_discardpolicy exampleState "DISCARD_PARTIAL_FRAMES" =
      { exampleState with
        device := { exampleState.device with rx_discardpolicy := some 2 } } ∧
    write_rx_discardpolicy exampleState "DISCARD_EMPTY" = exampleState ∧
    write_rx_discardpolicy exampleState "DISCARD_PARTIAL" = exampleState :=
  ⟨ (write_rx_discardpolicy_validation exampleState "NO_DISCARD").1 0 (by decide),
    (write_rx_discardpolicy_validation exampleState "DISCARD_EMPTY_FRAMES").1 1 (by decide),
    (write_rx_discardpolicy_validation exampleState "DISCARD_PARTIAL_FRAMES").1 2 (by decide),
    (write_rx_discardpolicy_validation exampleState "DISCARD_EMPTY").2 (by decide),
    (write_rx_discardpolicy_validation exampleState "DISCARD_PARTIAL").2 (by decide) ⟩

/-- C4: the writers of `rx_missingpackets`, `rx_status`, `rx_version` and
`firmware_version` are no-ops: for every value they return the server
state unchanged, with no detector call, no state change, no log entry. -/
theorem readonly_writers_noop (st : ServerState) (value : String) :
    write_rx_missingpackets st value = st ∧
    write_rx_status st value = st ∧
    write_rx_version st value = st ∧
    write_firmware_version st value = st :=
  ⟨rfl, rfl, rfl, rfl⟩

/-- C5: writing "AUTO" sets the detector timing to `AUTO_TIMING`, writing
"EXT" sets it to `TRIGGER_EXPOSURE`; reading returns "AUTO" when the
timing is `AUTO_TIMING` and "EXT" when it is `TRIGGER_EXPOSURE`, so a
write of either string followed by a read returns the same string. -/
theorem timing_mode_mapping (st : ServerState) :
    (write_timing_mode st (PyVal.str "AUTO")).device.timing = AUTO_TIMING ∧
    (write_timing_mode st (PyVal.str "EXT")).device.timing = TRIGGER_EXPOSURE ∧
    (st.device.timing = AUTO_TIMING → (read_timing_mode st).2 = some "AUTO") ∧
    (st.device.timing = TRIGGER_EXPOSURE → (read_timing_mode st).2 = some "EXT") ∧
    (read_timing_mode (write_timing_mode st (PyVal.str "AUTO"))).2 = some "AUTO" ∧
    (read_timing_mode (write_timing_mode st (PyVal.str "EXT"))).2 = some "EXT" := by
  have ha : pyLower "AUTO" = "auto" := by decide
  have he : pyLower "EXT" = "ext" := by decide
  have hne : ¬ pyLower "EXT" = "auto" := by decide
  refine ⟨?_, ?_, ?_, ?_, ?_, ?_⟩
  · simp [write_timing_mode, ha]
  · simp [write_timing_mode, he, hne]
  · intro h
    simp [read_timing_mode, h]
  · intro h
    simp [read_timing_mode, h, AUTO_TIMING, TRIGGER_EXPOSURE]
  · simp [write_timing_mode, ha, read_timing_mode, info_stream]
  · simp [write_timing_mode, he, hne, read_timing_mode, info_stream,
      AUTO_TIMING, TRIGGER_EXPOSURE]

/-- C5 witness: the two reads at concrete states with the two recognised
timing values. -/
theorem timing_mode_mapping_witness :
    (read_timing_mode exampleState).2 = some "AUTO" ∧
    (read_timing_mode timingExtState).2 = some "EXT" :=
  ⟨ (timing_mode_mapping exampleState).2.2.1 (by decide),
    (timing_mode_mapping timingExtState).2.2.2.1 (by decide) ⟩

/-- C6: the highvoltage attribute declares hard bounds 60..200 V and
warning bounds 70..170 V, and whenever the vendor setter raises
`RuntimeError`, `write_highvoltage` catches it, streams an error, does not
propagate it (the embedded method is total) and leaves the detector state
unchanged. -/
theorem highvoltage_bounds_and_catch (hvRejects : Int → Bool) (st : ServerState)
    (value : Int) :
    highvoltage_attr.min_value = 60 ∧
    highvoltage_attr.max_value = 200 ∧
    highvoltage_attr.min_warning = 70 ∧
    highvoltage_attr.max_warning = 170 ∧
    (hvRejects value = true →
      write_highvoltage hvRejects st value = error_stream st "not allowed highvoltage" ∧
      (write_highvoltage hvRejects st value).device = st.device) := by
  refine ⟨rfl, rfl, rfl, rfl, ?_⟩
  intro h
  constructor
  · simp [write_highvoltage, h]
  · simp [write_highvoltage, h, error_stream]

/-- C6 witness: with a vendor setter that always raises, a write of 300 V
only streams the error and keeps the detector unchanged. -/
theorem highvoltage_bounds_and_catch_witness :
    write_highvoltage rejectAll exampleState 300 =
      error_stream exampleState "not allowed highvoltage" ∧
    (write_highvoltage rejectAll exampleState 300).device = exampleState.device :=
  (highvoltage_bounds_and_catch rejectAll exampleState 300).2.2.2.2 (by decide)

/-- C8: `delete_device` calls `deactivate_pc` with the stored VIRTUAL
flag; when the teardown raises, the exception is caught, the manual-kill
message is streamed and nothing propagates (the embedded command returns
a plain state in both cases). -/
theorem delete_device_catches (st : ServerState) :
    delete_device true st =
      info_stream { st with pcCalls := PcCall.deactivate_pc st.VIRTUAL :: st.pcCalls }
        "Unable to kill slsReceiver or zmq socket. Please kill it manually." ∧
    PcCall.deactivate_pc st.VIRTUAL ∈ (delete_device true st).pcCalls ∧
    delete_device false st =
      info_stream { st with pcCalls := PcCall.deactivate_pc st.VIRTUAL :: st.pcCalls }
        "SlsReceiver or zmq socket processes were killed." := by
  refine ⟨rfl, ?_, rfl⟩
  simp [delete_device, info_stream]

/-- C9: the zmqip validation is purely syntactic: every string of four
dot-separated groups of one to three digits is accepted and handed to the
`IpAddr` constructor unchanged, with no range check on the octets;
"999.999.999.999" in particular passes. -/
theorem zmqip_no_range_check (st : ServerState) (value : String) :
    (isDottedQuadSyntax value = true →
      matchesIpRegex value = true ∧
      write_zmqip st value =
        { st with device := { st.device with rx_zmqip := IpAddr.mk value } }) ∧
    isDottedQuadSyntax "999.999.999.999" = true ∧
    (write_zmqip st "999.999.999.999").device.rx_zmqip =
      IpAddr.mk "999.999.999.999" := by
  refine ⟨?_, by decide, ?_⟩
  · intro h
    have hm : matchesIpRegex value = true := by
      simp [matchesIpRegex, h]
    exact ⟨hm, by simp [write_zmqip, hm]⟩
  · have hm : matchesIpRegex "999.999.999.999" = true := by decide
    simp [write_zmqip, hm]

/-- C9 witness: the out-of-range dotted quad is forwarded verbatim. -/
theorem zmqip_no_range_check_witness :
    matchesIpRegex "999.999.999.999" = true ∧
    write_zmqip exampleState "999.999.999.999" =
      { exampleState with
        device := { exampleState.device with
          rx_zmqip := IpAddr.mk "999.999.999.999" } } :=
  (zmqip_no_range_check exampleState "999.999.999.999").1 (by decide)

/-- C10: when the detector timing is neither `AUTO_TIMING` nor
`TRIGGER_EXPOSURE`, `read_timing_mode` returns no value and only streams
an info message; `write_timing_mode` silently ignores any string whose
lower-cased form is neither "auto" nor "ext" and merely streams an info
message on non-string input. -/
theorem timing_mode_partiality (st : ServerState) (s : String) :
    (st.device.timing ≠ AUTO_TIMING → st.device.timing ≠ TRIGGER_EXPOSURE →
      (read_timing_mode st).2 = none ∧
      (read_timing_mode st).1 =
        info_stream st "The timing mode is not assigned correctly.") ∧
    (pyLower s ≠ "auto" → pyLower s ≠ "ext" →
      write_timing_mode st (PyVal.str s) = st) ∧
    write_timing_mode st PyVal.nonstr =
      info_stream st "Timing mode should be \"AUTO/EXT\" string" := by
  refine ⟨?_, ?_, rfl⟩
  · intro h1 h2
    simp [read_timing_mode, h1, h2]
  · intro h1 h2
    simp [write_timing_mode, h1, h2]

/-- C10 witness: at `GATED` timing the read returns none, and the string
"bogus" leaves the state untouched. -/
theorem timing_mode_partiality_witness :
    (read_timing_mode timingGatedState).2 = none ∧
    write_timing_mode timingGatedState (PyVal.str "bogus") = timingGatedState :=
  ⟨ ((timing_mode_partiality timingGatedState "bogus").1 (by decide) (by decide)).1,
    (timing_mode_partiality timingGatedState "bogus").2.1 (by decide) (by decide) ⟩

/-- C7: `init_device` calls `init_pc` with virtual=true exactly when
"--virtual" appears in the launch arguments (and with virtual=false
exactly when it does not); the stored VIRTUAL flag equals that membership
test and is the value `delete_device` later passes to `deactivate_pc`;
and whenever `init_pc` returns false the device ends in the FAULT state
with the firewall message in the log. -/
theorem init_device_virtual_flag (argv : List String) (initPcResult : Bool)
    (statusResult : Except String String) (deactivateRaises : Bool) :
    (PcCall.init_pc true ∈
        (init_device argv initPcResult statusResult deactivateRaises).pcCalls ↔
      "--virtual" ∈ argv) ∧
    (PcCall.init_pc false ∈
        (init_device argv initPcResult statusResult deactivateRaises).pcCalls ↔
      "--virtual" ∉ argv) ∧
    (init_device argv initPcResult statusResult deactivateRaises).VIRTUAL =
      argv.contains "--virtual" ∧
    (∀ dr (st : ServerState),
      PcCall.deactivate_pc st.VIRTUAL ∈ (delete_device dr st).pcCalls) ∧
    (initPcResult = false →
      (init_device argv initPcResult statusResult deactivateRaises).state =
        DevState.FAULT ∧
      LogEntry.info "Unable to start slsReceiver or zmq socket. Check firewall process and already running instances."
        ∈ (init_device argv initPcResult statusResult deactivateRaises).log) := by
  have hdel : ∀ dr (st : ServerState),
      PcCall.deactivate_pc st.VIRTUAL ∈ (delete_device dr st).pcCalls := by
    intro dr st
    cases dr <;> simp [delete_device, info_stream]
  rcases statusResult with e | s <;> cases initPcResult <;> cases deactivateRaises <;>
    simp [init_device, delete_device, info_stream, error_stream, hdel, List.elem_iff,
      eq_comm]

/-- C7 witness: launching with the "--virtual" flag and a failing
`init_pc` records a virtual=true `init_pc` call and ends in FAULT. -/
theorem init_device_virtual_flag_witness :
    PcCall.init_pc true ∈
      (init_device ["--virtual"] false (Except.ok "idle") false).pcCalls ∧
    (init_device ["--virtual"] false (Except.ok "idle") false).state =
      DevState.FAULT :=
  ⟨ (init_device_virtual_flag ["--virtual"] false (Except.ok "idle") false).1.mpr
      (by decide),
    ((init_device_virtual_flag ["--virtual"] false (Except.ok "idle") false).2.2.2.2
      rfl).1 ⟩
